import Mathlib

/-!
Verification of the sustainOS AI service (`src/ai-service/main.py`).

The service has two functional pieces:
* `get_live_temperature` — fetches the current outdoor temperature from a
  fixed forecast endpoint inside a `try/except`, falling back to `35.0` when
  any exception occurs in the `try` block;
* `simulate_policy` — a pure calculation turning `SimulationParams` and the
  outdoor temperature into a five-field `SimulationResult`.

Python floats are modelled by `ℚ`; `round(x, 2)` / `round(x, 1)` by
`round2` / `round1` below.  Decimal literals of the source (`0.1`, `0.82`,
`0.015`, `1.5`) are the corresponding exact rationals.
-/

namespace SustainOS

/-- Python `round(x, 2)` of the source: round to 2 decimal places. -/
def round2 (q : ℚ) : ℚ := (round (q * 100) : ℤ) / 100

/-- Python `round(x, 1)` of the source: round to 1 decimal place. -/
def round1 (q : ℚ) : ℚ := (round (q * 10) : ℤ) / 10

/-- The `class SimulationParams(BaseModel)` of `main.py`. -/
structure SimulationParams where
  acTemp : ℚ
  reductionPercent : ℚ
  incentiveEnabled : Bool
deriving DecidableEq

/-- The `class SimulationResult(BaseModel)` of `main.py`. -/
structure SimulationResult where
  costSavings : ℚ
  carbonReduction : ℚ
  comfortScore : ℚ
  energySaved : ℚ
  outdoorTemp : ℚ
deriving DecidableEq

/-- Line 49: `delta_t_baseline = max(0, outdoor_temp - 22)`. -/
def delta_t_baseline (outdoor_temp : ℚ) : ℚ := max 0 (outdoor_temp - 22)

/-- Line 50: `delta_t_new = max(0, outdoor_temp - params.acTemp)`. -/
def delta_t_new (params : SimulationParams) (outdoor_temp : ℚ) : ℚ :=
  max 0 (outdoor_temp - params.acTemp)

/-- Lines 54–57, `thermal_savings_pct`: `1 - delta_t_new / delta_t_baseline`
when `delta_t_baseline > 0`, else `0`. -/
def thermal_savings_pct (params : SimulationParams) (outdoor_temp : ℚ) : ℚ :=
  if delta_t_baseline outdoor_temp > 0 then
    1 - delta_t_new params outdoor_temp / delta_t_baseline outdoor_temp
  else 0

/-- Line 63: `total_savings_pct = thermal_savings_pct + (params.reductionPercent / 100.0)`. -/
def total_savings_pct (params : SimulationParams) (outdoor_temp : ℚ) : ℚ :=
  thermal_savings_pct params outdoor_temp + params.reductionPercent / 100

/-- Lines 60 and 65: `energy_saved_kwh = baseline_energy_monthly * total_savings_pct` with
`baseline_energy_monthly = 25500.0`. -/
def energy_saved_kwh (params : SimulationParams) (outdoor_temp : ℚ) : ℚ :=
  25500 * total_savings_pct params outdoor_temp

/-- Lines 68–70: `cost_savings = (energy_saved_kwh * base_rate) + incentive` with
`base_rate = 12.0` and `incentive = 5000.0 if params.incentiveEnabled else 0.0`. -/
def cost_savings (params : SimulationParams) (outdoor_temp : ℚ) : ℚ :=
  energy_saved_kwh params outdoor_temp * 12 +
    (if params.incentiveEnabled then 5000 else 0)

/-- Line 71: `carbon_reduction = energy_saved_kwh * 0.82`. -/
def carbon_reduction (params : SimulationParams) (outdoor_temp : ℚ) : ℚ :=
  energy_saved_kwh params outdoor_temp * 0.82

/-- The comfort score after the heat-stress penalty (lines 75–81): start at
`1.0`; if `acTemp > 24`, subtract `((acTemp - 24) * 0.1) * heat_factor` where
`heat_factor = 1.5 if outdoor_temp > 40 else 1.0`. -/
def score_after_heat (params : SimulationParams) (outdoor_temp : ℚ) : ℚ :=
  if params.acTemp > 24 then
    1 - (params.acTemp - 24) * 0.1 * (if outdoor_temp > 40 then 1.5 else 1.0)
  else 1

/-- The comfort score after both penalties (lines 83–84): if
`reductionPercent > 15`, further subtract `(reductionPercent - 15) * 0.015`. -/
def score (params : SimulationParams) (outdoor_temp : ℚ) : ℚ :=
  if params.reductionPercent > 15 then
    score_after_heat params outdoor_temp - (params.reductionPercent - 15) * 0.015
  else score_after_heat params outdoor_temp

/-- The calculation of `simulate_policy` (lines 41–92) as a function of the
params and the already-fetched outdoor temperature: the returned dict of
lines 86–92. -/
def simulate_policy (params : SimulationParams) (outdoor_temp : ℚ) : SimulationResult :=
  { costSavings := round2 (cost_savings params outdoor_temp)
    carbonReduction := round2 (carbon_reduction params outdoor_temp)
    comfortScore := round2 (max 0.1 (min 1.0 (score params outdoor_temp)))
    energySaved := round2 (energy_saved_kwh params outdoor_temp)
    outdoorTemp := round1 outdoor_temp }

/-! ## The weather fetch (`get_live_temperature`, lines 22–33)

The function runs `requests.get(url, timeout=2)`, decodes the body with
`response.json()`, subscripts `data['current']['temperature_2m']` and returns
the resulting value; any exception raised inside the `try` block is caught
and `35.0` is returned instead.  The environment is modelled by
`FetchOutcome`: the `requests.get` call either raises (connection error or
timeout) or yields a response with a status code and a body.  The `requests`
library does not raise on a non-200 status code (only `raise_for_status`
would), so a status code is part of the response, and `get_live_temperature`
below — like the source — never reads it.  A body on which `.json()` raises
is modelled by `body = none`; the subscripts raise `KeyError` (key missing)
or `TypeError` (non-object value), modelled by `Json.index` returning
`none`.  The extracted value is returned verbatim, whatever JSON value it
is, so the model's return type is `Json`. -/

/-- A JSON value, as produced by `response.json()`. -/
inductive Json where
  | num (q : ℚ)
  | str (s : String)
  | bool (b : Bool)
  | null
  | arr (elems : List Json)
  | obj (fields : List (String × Json))

/-- Python subscripting `j[k]` on a decoded JSON value: `some` result when
`j` is an object containing key `k`; `none` when the subscript raises
(`KeyError` for a missing key, `TypeError` for a non-object). -/
def Json.index : Json → String → Option Json
  | .obj fields, k => fields.lookup k
  | _, _ => none

/-- The two-level subscript `data['current']['temperature_2m']` of line 28:
`some` the value when both subscripts succeed, `none` when either raises. -/
def extract_temperature_2m (data : Json) : Option Json :=
  (data.index "current").bind fun c => c.index "temperature_2m"

/-- An HTTP response as returned (without raising) by `requests.get`:
a status code and a body; `body = none` models a body on which
`response.json()` raises. -/
structure HttpResponse where
  status : Nat
  body : Option Json

/-- The outcome of `requests.get(url, timeout=2)`: either the call raises
(network error or timeout), or it returns a response — whatever its status
code. -/
inductive FetchOutcome where
  | raises
  | responds (resp : HttpResponse)

/-- Lines 22–33, `get_live_temperature`, as a function of the fetch outcome:
return `data['current']['temperature_2m']` verbatim, or `35.0` when any step
of the `try` block raises.  The status code of a returned response is never
inspected. -/
def get_live_temperature : FetchOutcome → Json
  | .raises => .num 35
  | .responds resp =>
    match resp.body with
    | none => .num 35
    | some data =>
      match extract_temperature_2m data with
      | none => .num 35
      | some temp => temp

/-- The failure modes enumerated by the specification for the weather call:
network error or timeout, non-200 HTTP status, non-JSON body, or a
missing/malformed temperature field. -/
def spec_weather_failure : FetchOutcome → Prop
  | .raises => True
  | .responds resp =>
      resp.status ≠ 200 ∨ resp.body = none ∨
        (∀ data, resp.body = some data →
          (extract_temperature_2m data = none ∨
            ∀ q, extract_temperature_2m data ≠ some (.num q)))

/-! ## Checked arithmetic (claim C8)

In Python, `/` raises `ZeroDivisionError` on a zero denominator; an
exception escaping the calculation would be converted by the `except` at
lines 94–95 into an HTTP 500.  `simulate_policy_checked` recomputes the
calculation with the one division of line 55 checked, to show the failure
branch is unreachable. -/

/-- Python division: raises (`Except.error`) exactly when the denominator is
zero. -/
def checkedDiv (a b : ℚ) : Except String ℚ :=
  if b = 0 then .error "division by zero" else .ok (a / b)

/-- The calculation of `simulate_policy` with the division of line 55
performed by `checkedDiv`; every other step is exception-free rational
arithmetic. -/
def simulate_policy_checked (params : SimulationParams) (outdoor_temp : ℚ) :
    Except String SimulationResult := do
  let thermal ←
    if delta_t_baseline outdoor_temp > 0 then do
      let q ← checkedDiv (delta_t_new params outdoor_temp) (delta_t_baseline outdoor_temp)
      pure (1 - q)
    else pure (0 : ℚ)
  let total := thermal + params.reductionPercent / 100
  let energy := 25500 * total
  let cost := energy * 12 + (if params.incentiveEnabled then 5000 else 0)
  let carbon := energy * 0.82
  pure { costSavings := round2 cost
         carbonReduction := round2 carbon
         comfortScore := round2 (max 0.1 (min 1.0 (score params outdoor_temp)))
         energySaved := round2 energy
         outdoorTemp := round1 outdoor_temp }

/-! ## Specification-side definitions

These follow the wording of the specification claims, to be compared with
the definitions above that were translated from the source. -/

/-- Claim wording: `thermalSavingsPct = 1 - (max(0, outdoorTemp - acTemp) /
max(0, outdoorTemp - 22))` when `outdoorTemp > 22` and `0` otherwise. -/
def spec_thermalSavingsPct (acTemp outdoorTemp : ℚ) : ℚ :=
  if 22 < outdoorTemp then
    1 - max 0 (outdoorTemp - acTemp) / max 0 (outdoorTemp - 22)
  else 0

/-- Claim wording: `energySaved = 25500.0 * (thermalSavingsPct +
reductionPercent/100)` (before rounding). -/
def spec_energySaved (params : SimulationParams) (outdoorTemp : ℚ) : ℚ :=
  25500 * (spec_thermalSavingsPct params.acTemp outdoorTemp +
    params.reductionPercent / 100)

/-- Claim wording: `costSavings = energySaved * 12.0` plus `5000.0` exactly
when `incentiveEnabled` is true (before rounding). -/
def spec_costSavings (params : SimulationParams) (outdoorTemp : ℚ) : ℚ :=
  spec_energySaved params outdoorTemp * 12 +
    (if params.incentiveEnabled then 5000 else 0)

/-- Claim wording: `carbonReduction = energySaved * 0.82` (before rounding). -/
def spec_carbonReduction (params : SimulationParams) (outdoorTemp : ℚ) : ℚ :=
  spec_energySaved params outdoorTemp * 0.82

/-- Claim wording for the comfort score: start at `1.0`; if `acTemp > 24`
subtract `(acTemp - 24) * 0.1 * heatFactor` with `heatFactor = 1.5` when
`outdoorTemp > 40` and `1.0` otherwise; if `reductionPercent > 15` subtract
`(reductionPercent - 15) * 0.015`; clamp to `[0.1, 1.0]` and round to 2
decimals. -/
def spec_comfortScore (acTemp reductionPercent outdoorTemp : ℚ) : ℚ :=
  let heatFactor : ℚ := if outdoorTemp > 40 then 1.5 else 1.0
  let s1 : ℚ := if acTemp > 24 then 1 - (acTemp - 24) * 0.1 * heatFactor else 1
  let s2 : ℚ := if reductionPercent > 15 then s1 - (reductionPercent - 15) * 0.015 else s1
  round2 (max 0.1 (min 1.0 s2))

/-! ## Helper lemmas -/

/-- Rounding to two decimals is monotone. -/
lemma round2_mono {a b : ℚ} (h : a ≤ b) : round2 a ≤ round2 b := by
  have h1 : round (a * 100) ≤ round (b * 100) := by
    rw [round_eq, round_eq]
    exact Int.floor_mono (by linarith)
  have h2 : ((round (a * 100) : ℤ) : ℚ) ≤ ((round (b * 100) : ℤ) : ℚ) := by
    exact_mod_cast h1
  unfold round2
  linarith

/-- Adding the integral incentive amount commutes with two-decimal rounding. -/
lemma round2_add_5000 (x : ℚ) : round2 (x + 5000) = round2 x + 5000 := by
  unfold round2
  have h : (x + 5000) * 100 = x * 100 + ((500000 : ℤ) : ℚ) := by push_cast; ring
  rw [h, round_add_int]
  push_cast
  ring

/-- The guard of line 54 is equivalent to the outdoor temperature exceeding
the 22°C baseline setpoint. -/
lemma delta_t_baseline_pos_iff (outdoor_temp : ℚ) :
    delta_t_baseline outdoor_temp > 0 ↔ 22 < outdoor_temp := by
  unfold delta_t_baseline
  simp [gt_iff_lt, lt_max_iff, sub_pos, lt_self_iff_false]

/-- The code's thermal savings fraction agrees with the specification's
formulation. -/
lemma thermal_eq_spec (params : SimulationParams) (outdoor_temp : ℚ) :
    thermal_savings_pct params outdoor_temp
      = spec_thermalSavingsPct params.acTemp outdoor_temp := by
  unfold thermal_savings_pct spec_thermalSavingsPct
  rcases lt_or_le 22 outdoor_temp with h | h
  · rw [if_pos ((delta_t_baseline_pos_iff outdoor_temp).mpr h), if_pos h]
    unfold delta_t_new delta_t_baseline
    rfl
  · rw [if_neg (by rw [delta_t_baseline_pos_iff]; exact not_lt.mpr h),
      if_neg (not_lt.mpr h)]

/-! ## Claims -/

/-- C1: for every input, `simulate_policy` returns `energySaved`,
`costSavings` and `carbonReduction` equal to the specification formulas —
`energySaved = 25500.0 * (thermalSavingsPct + reductionPercent/100)`,
`costSavings = energySaved * 12.0` plus `5000.0` exactly when the incentive
is enabled, `carbonReduction = energySaved * 0.82`, with the claimed
thermal savings fraction — each rounded to 2 decimals. -/
theorem simulate_matches_spec_formulas (params : SimulationParams) (outdoorTemp : ℚ) :
    (simulate_policy params outdoorTemp).energySaved
        = round2 (spec_energySaved params outdoorTemp) ∧
    (simulate_policy params outdoorTemp).costSavings
        = round2 (spec_costSavings params outdoorTemp) ∧
    (simulate_policy params outdoorTemp).carbonReduction
        = round2 (spec_carbonReduction params outdoorTemp) := by
  have hE : energy_saved_kwh params outdoorTemp = spec_energySaved params outdoorTemp := by
    unfold energy_saved_kwh total_savings_pct spec_energySaved
    rw [thermal_eq_spec]
  refine ⟨?_, ?_, ?_⟩
  · simp only [simulate_policy, hE]
  · simp only [simulate_policy, cost_savings, spec_costSavings, hE]
  · simp only [simulate_policy, carbon_reduction, spec_carbonReduction, hE]

/-- C2 (counterexample): at `acTemp=24, reductionPercent=10,
incentiveEnabled=false, outdoorTemp=35` the returned `energySaved` is
`6473.08`, which is not within `0.5` of the claimed `≈6472.3`; the claimed
triple of approximate outputs is therefore false as stated. -/
theorem scenario1_claimed_values_false :
    ¬(|(simulate_policy ⟨24, 10, false⟩ 35).energySaved - 6472.3| ≤ 1/2 ∧
      |(simulate_policy ⟨24, 10, false⟩ 35).costSavings - 77667.7| ≤ 1/2 ∧
      |(simulate_policy ⟨24, 10, false⟩ 35).carbonReduction - 5307.3| ≤ 1/2 ∧
      (simulate_policy ⟨24, 10, false⟩ 35).comfortScore = 1) := by
  intro hcl
  have h := hcl.1
  have hE : (simulate_policy ⟨24, 10, false⟩ 35).energySaved = 6473.08 := by
    simp only [simulate_policy, energy_saved_kwh, total_savings_pct, thermal_savings_pct,
      delta_t_baseline, delta_t_new, round2, round_eq]
    norm_num
  rw [hE] at h
  norm_num [abs_le] at h

/-- C2 (amended): at `acTemp=24, reductionPercent=10, incentiveEnabled=false,
outdoorTemp=35` the result is exactly `energySaved = 6473.08` kWh,
`costSavings = 77676.92`, `carbonReduction = 5307.92`, `comfortScore = 1.0`
(the spec's `deltaBaseline=13, deltaNew=11, thermalSavingsPct = 2/13` are
right, but `25500 * (2/13 + 0.1) = 6473.077…`, not `≈6472.3`). -/
theorem scenario1_values :
    simulate_policy ⟨24, 10, false⟩ 35 =
      { costSavings := 77676.92, carbonReduction := 5307.92, comfortScore := 1,
        energySaved := 6473.08, outdoorTemp := 35 } := by
  simp only [simulate_policy, cost_savings, carbon_reduction, energy_saved_kwh,
    total_savings_pct, thermal_savings_pct, delta_t_baseline, delta_t_new,
    score, score_after_heat, round2, round1, round_eq]
  norm_num

/-- C3 (counterexample): a response with HTTP status 500 whose body still
contains a numeric `current.temperature_2m` field makes
`get_live_temperature` return that value (`99`), not the fallback `35.0`:
the source never reads `response.status_code`, so a non-200 status alone
does not induce the fallback, refuting the claim that every enumerated
failure mode yields `35.0`. -/
theorem weather_fallback_claim_false :
    ¬(∀ o : FetchOutcome, spec_weather_failure o → get_live_temperature o = .num 35) := by
  intro hcl
  have hfail : spec_weather_failure
      (.responds ⟨500, some (.obj [("current", .obj [("temperature_2m", .num 99)])])⟩) :=
    Or.inl (by decide)
  have h := hcl _ hfail
  have hval : get_live_temperature
      (.responds ⟨500, some (.obj [("current", .obj [("temperature_2m", .num 99)])])⟩)
      = .num 99 := rfl
  rw [hval] at h
  injection h with h99
  norm_num at h99

/-- C3 (amended): `get_live_temperature` is total — a function into `Json`,
every path returning a value — and returns the fallback `35.0` exactly when
the `try` block raises: on a network error or timeout of `requests.get`, on
a body on which `.json()` raises, and on a failing
`data['current']['temperature_2m']` subscript; on any response whose body
yields the field — whatever its HTTP status, and whether or not the value
is numeric — it returns the extracted value verbatim. -/
theorem get_live_temperature_fallback :
    (get_live_temperature .raises = .num 35) ∧
    (∀ status : Nat, get_live_temperature (.responds ⟨status, none⟩) = .num 35) ∧
    (∀ (status : Nat) (data : Json), extract_temperature_2m data = none →
      get_live_temperature (.responds ⟨status, some data⟩) = .num 35) ∧
    (∀ (status : Nat) (data v : Json), extract_temperature_2m data = some v →
      get_live_temperature (.responds ⟨status, some data⟩) = v) := by
  refine ⟨rfl, fun _ => rfl, fun s d h => ?_, fun s d v h => ?_⟩
  · simp only [get_live_temperature, h]
  · simp only [get_live_temperature, h]

/-- Witness for `get_live_temperature_fallback`: a non-JSON-object body
falls back to `35.0`; a status-500 response whose body still carries the
field returns that value. -/
theorem get_live_temperature_fallback_witness :
    get_live_temperature (.responds ⟨200, some (.str "oops")⟩) = .num 35 ∧
    get_live_temperature
      (.responds ⟨500, some (.obj [("current", .obj [("temperature_2m", .num 99)])])⟩)
      = .num 99 :=
  ⟨get_live_temperature_fallback.2.2.1 200 (.str "oops") rfl,
   get_live_temperature_fallback.2.2.2 500
     (.obj [("current", .obj [("temperature_2m", .num 99)])]) (.num 99) rfl⟩

/-- C4: the comfort score of `simulate_policy` follows the claimed formula —
start at `1.0`; if `acTemp > 24` subtract `(acTemp - 24) * 0.1 * heatFactor`
with `heatFactor = 1.5` when `outdoorTemp > 40` and `1.0` otherwise; if
`reductionPercent > 15` subtract `(reductionPercent - 15) * 0.015`; clamp to
`[0.1, 1.0]` and round to 2 decimals — and at `acTemp=30, outdoorTemp=45,
reductionPercent=0` it is exactly `0.1`. -/
theorem comfortScore_formula :
    (∀ (params : SimulationParams) (outdoorTemp : ℚ),
      (simulate_policy params outdoorTemp).comfortScore
        = spec_comfortScore params.acTemp params.reductionPercent outdoorTemp) ∧
    (simulate_policy ⟨30, 0, false⟩ 45).comfortScore = 0.1 := by
  constructor
  · intro params outdoorTemp
    rfl
  · simp only [simulate_policy, score, score_after_heat, round2, round_eq]
    norm_num

/-- C5: for every input the returned comfort score lies in `[0.1, 1.0]`,
the bounds surviving the final two-decimal rounding. -/
theorem comfortScore_clamped (params : SimulationParams) (outdoorTemp : ℚ) :
    0.1 ≤ (simulate_policy params outdoorTemp).comfortScore ∧
    (simulate_policy params outdoorTemp).comfortScore ≤ 1 := by
  have hlo : (0.1 : ℚ) ≤ max 0.1 (min 1.0 (score params outdoorTemp)) := le_max_left _ _
  have hhi : max 0.1 (min 1.0 (score params outdoorTemp)) ≤ 1 :=
    max_le (by norm_num) ((min_le_left _ _).trans (by norm_num))
  have e1 : round2 0.1 = 0.1 := by norm_num [round2, round_eq]
  have e2 : round2 1 = 1 := by norm_num [round2, round_eq]
  constructor
  · have h := round2_mono hlo
    rw [e1] at h
    simpa only [simulate_policy] using h
  · have h := round2_mono hhi
    rw [e2] at h
    simpa only [simulate_policy] using h

/-- C6: when `outdoorTemp ≤ 22` the thermal savings fraction is exactly `0`
whatever `acTemp` is, and with `reductionPercent = 0` and the incentive off,
`simulate_policy` returns `energySaved = 0`, `costSavings = 0` and
`carbonReduction = 0`. -/
theorem cold_outdoor_zero (acTemp outdoorTemp : ℚ) (h : outdoorTemp ≤ 22) :
    (∀ (reductionPercent : ℚ) (incentiveEnabled : Bool),
      thermal_savings_pct ⟨acTemp, reductionPercent, incentiveEnabled⟩ outdoorTemp = 0) ∧
    (simulate_policy ⟨acTemp, 0, false⟩ outdoorTemp).energySaved = 0 ∧
    (simulate_policy ⟨acTemp, 0, false⟩ outdoorTemp).costSavings = 0 ∧
    (simulate_policy ⟨acTemp, 0, false⟩ outdoorTemp).carbonReduction = 0 := by
  have hth : ∀ p : SimulationParams, thermal_savings_pct p outdoorTemp = 0 := by
    intro p
    unfold thermal_savings_pct
    rw [if_neg]
    rw [delta_t_baseline_pos_iff]
    exact not_lt.mpr h
  have hE : energy_saved_kwh ⟨acTemp, 0, false⟩ outdoorTemp = 0 := by
    unfold energy_saved_kwh total_savings_pct
    rw [hth]
    norm_num
  refine ⟨fun rp ie => hth _, ?_, ?_, ?_⟩
  · simp only [simulate_policy, hE]
    norm_num [round2, round_eq]
  · simp only [simulate_policy, cost_savings, hE]
    norm_num [round2, round_eq]
  · simp only [simulate_policy, carbon_reduction, hE]
    norm_num [round2, round_eq]

/-- Witness for `cold_outdoor_zero` at `acTemp = 24`, `outdoorTemp = 20`. -/
theorem cold_outdoor_zero_witness :
    thermal_savings_pct ⟨24, 0, false⟩ 20 = 0 ∧
    (simulate_policy ⟨24, 0, false⟩ 20).energySaved = 0 ∧
    (simulate_policy ⟨24, 0, false⟩ 20).costSavings = 0 ∧
    (simulate_policy ⟨24, 0, false⟩ 20).carbonReduction = 0 :=
  ⟨(cold_outdoor_zero 24 20 (by norm_num)).1 0 false,
   (cold_outdoor_zero 24 20 (by norm_num)).2.1,
   (cold_outdoor_zero 24 20 (by norm_num)).2.2.1,
   (cold_outdoor_zero 24 20 (by norm_num)).2.2.2⟩

/-- C7: enabling the incentive adds exactly `5000.0` to `costSavings`, all
other parameters equal, for every input (the incentive amount is an integer
multiple of one hundredth, so it commutes with the final rounding). -/
theorem incentive_additivity (acTemp reductionPercent outdoorTemp : ℚ) :
    (simulate_policy ⟨acTemp, reductionPercent, true⟩ outdoorTemp).costSavings -
      (simulate_policy ⟨acTemp, reductionPercent, false⟩ outdoorTemp).costSavings = 5000 := by
  have hE : energy_saved_kwh ⟨acTemp, reductionPercent, true⟩ outdoorTemp
      = energy_saved_kwh ⟨acTemp, reductionPercent, false⟩ outdoorTemp := rfl
  simp only [simulate_policy, cost_savings, hE, if_true, Bool.false_eq_true, if_false]
  rw [add_zero, round2_add_5000]
  ring

/-- C8: the calculation is total — recomputing it with Python-style checked
division (which would raise `ZeroDivisionError` on a zero denominator, to be
turned into an HTTP 500 by the handler's catch-all) succeeds on every input
and returns exactly `simulate_policy`, the one division being guarded by
`delta_t_baseline > 0`. -/
theorem simulate_checked_total (params : SimulationParams) (outdoorTemp : ℚ) :
    simulate_policy_checked params outdoorTemp
      = .ok (simulate_policy params outdoorTemp) := by
  unfold simulate_policy_checked simulate_policy checkedDiv cost_savings
    carbon_reduction energy_saved_kwh total_savings_pct thermal_savings_pct
  by_cases h : delta_t_baseline outdoorTemp > 0
  · simp only [if_pos h, if_neg (ne_of_gt h)]
    rfl
  · simp only [if_neg h]
    rfl

/-- C9: the simulation calculation is deterministic — equal parameter
records and equal outdoor temperatures yield equal `SimulationResult`s; the
Lean model is a pure function of exactly these two inputs, mirroring that
the Python calculation reads no state besides them. -/
theorem simulate_deterministic (p₁ p₂ : SimulationParams) (t₁ t₂ : ℚ)
    (hp : p₁ = p₂) (ht : t₁ = t₂) :
    simulate_policy p₁ t₁ = simulate_policy p₂ t₂ := by
  rw [hp, ht]

/-- Witness for `simulate_deterministic` at a concrete input. -/
theorem simulate_deterministic_witness :
    simulate_policy ⟨24, 10, false⟩ 35 = simulate_policy ⟨24, 10, false⟩ 35 :=
  simulate_deterministic ⟨24, 10, false⟩ ⟨24, 10, false⟩ 35 35 rfl rfl

/-- C10: toggling `incentiveEnabled` changes only `costSavings` — the
`energySaved`, `carbonReduction`, `comfortScore` and `outdoorTemp` fields of
the result are identical with the incentive on and off, for every input. -/
theorem incentive_frame (acTemp reductionPercent outdoorTemp : ℚ) :
    (simulate_policy ⟨acTemp, reductionPercent, true⟩ outdoorTemp).energySaved
      = (simulate_policy ⟨acTemp, reductionPercent, false⟩ outdoorTemp).energySaved ∧
    (simulate_policy ⟨acTemp, reductionPercent, true⟩ outdoorTemp).carbonReduction
      = (simulate_policy ⟨acTemp, reductionPercent, false⟩ outdoorTemp).carbonReduction ∧
    (simulate_policy ⟨acTemp, reductionPercent, true⟩ outdoorTemp).comfortScore
      = (simulate_policy ⟨acTemp, reductionPercent, false⟩ outdoorTemp).comfortScore ∧
    (simulate_policy ⟨acTemp, reductionPercent, true⟩ outdoorTemp).outdoorTemp
      = (simulate_policy ⟨acTemp, reductionPercent, false⟩ outdoorTemp).outdoorTemp :=
  ⟨rfl, rfl, rfl, rfl⟩

end SustainOS
